import Mathlib

/-!
Shallow embedding of `scripts/generate-report.js`, the compliance-control
evaluation engine: artifact reader, severity summarizers, the six control
evaluators, the report renderer and the run orchestrator, together with
theorems checking the specification's claims about them.

JavaScript values parsed from JSON artifacts are modelled by the `Json`
inductive; JavaScript truthiness, property access, `String(...)` conversion,
`.toUpperCase()` and `x || y` on numbers and env strings are modelled by
explicit helper functions so every branch of the source is mirrored.
-/

namespace GenerateReport

/-- A JSON value as produced by `JSON.parse`. Numbers are modelled as
integers, which covers every count and total the program manipulates. -/
inductive Json where
  | null
  | bool (b : Bool)
  | num (n : Int)
  | str (s : String)
  | arr (elems : List Json)
  | obj (fields : List (String × Json))

/-- JavaScript truthiness of a parsed JSON value. -/
def jsTruthy : Json → Bool
  | .null => false
  | .bool b => b
  | .num n => n != 0
  | .str s => s != ""
  | .arr _ => true
  | .obj _ => true

/-- Property access `v.k`: `some` is a present property, `none` is
`undefined` (missing property, or access on a non-object). -/
def jsGet : Json → String → Option Json
  | .obj fields, k => fields.lookup k
  | _, _ => none

/-- Truthiness of a possibly-`undefined` value (`undefined` is falsy). -/
def jsTruthyOpt : Option Json → Bool
  | some j => jsTruthy j
  | none => false

/-- The test `typeof v === 'object'` (true for objects, arrays and `null`). -/
def typeofObject : Json → Bool
  | .null => true
  | .arr _ => true
  | .obj _ => true
  | _ => false

/-- The test `Array.isArray(v.k)` together with extraction of the array. -/
def jsGetArr? (j : Json) (k : String) : Option (List Json) :=
  match jsGet j k with
  | some (.arr xs) => some xs
  | _ => none

/-- Whether a possibly-`undefined` value is an array. -/
def isArrOpt : Option Json → Bool
  | some (.arr _) => true
  | _ => false

/-- The elements of a possibly-`undefined` array value (only consulted
after `isArrOpt` holds). -/
def getArrD : Option Json → List Json
  | some (.arr xs) => xs
  | _ => []

mutual

/-- JavaScript `String(v)` conversion of a parsed JSON value. -/
def jsToString : Json → String
  | .null => "null"
  | .bool b => if b then "true" else "false"
  | .num n => toString n
  | .str s => s
  | .arr xs => jsElemsToString xs
  | .obj _ => "[object Object]"

/-- Array element list joined by commas, as `Array.prototype.toString`. -/
def jsElemsToString : List Json → String
  | [] => ""
  | [j] => jsElemToString j
  | j :: rest => jsElemToString j ++ "," ++ jsElemsToString rest

/-- One array element converted for joining (`null` renders as empty). -/
def jsElemToString : Json → String
  | .null => ""
  | .bool b => if b then "true" else "false"
  | .num n => toString n
  | .str s => s
  | .arr xs => jsElemsToString xs
  | .obj _ => "[object Object]"

end

/-- JavaScript `.toUpperCase()`, character by character. -/
def toUpperCase (s : String) : String := ⟨s.data.map Char.toUpper⟩

/-- Template interpolation of a nullable string (`null` prints as "null"). -/
def optStr : Option String → String
  | some s => s
  | none => "null"

/-- Truthiness of a nullable string (`null` and `""` are falsy). -/
def jsStrOptTruthy : Option String → Bool
  | some s => s != ""
  | none => false

/-- The comparison `count > 0` where `count` may be `null`
(`null > 0` is false in JavaScript). -/
def jsNumOptGtZero : Option Int → Bool
  | some n => decide (0 < n)
  | none => false

/-- `a || b` on a possibly-absent numeric object property:
an absent or zero value falls through to the fallback. -/
def jsOrNum : Option Nat → Nat → Nat
  | some v, b => if v = 0 then b else v
  | none, b => b

/-- `process.env.X || d`: an unset or empty environment value falls
through to the default. -/
def jsEnvOr : Option String → String → String
  | some s, d => if s = "" then d else s
  | none, d => d

def STATUS_PASS : String := "PASS"

def STATUS_FAIL : String := "FAIL"

def SEC01 : String := "SEC-01"

def SEC02 : String := "SEC-02"

def SEC03 : String := "SEC-03"

def SEC04 : String := "SEC-04"

def SEC05 : String := "SEC-05"

def SEC06 : String := "SEC-06"

def FILES_gitleaks : String := "gitleaks.json"

def FILES_trivyFs : String := "trivy-fs.json"

def FILES_trivyImage : String := "trivy-image.json"

def FILES_dockle : String := "dockle.json"

def FILES_sbom : String := "sbom.json"

def TRIVY_SEVERITIES : List String := ["CRITICAL", "HIGH", "MEDIUM", "LOW", "UNKNOWN"]

/-- Result of `readJsonArtifact`: classification of one artifact file. -/
structure Artifact where
  name : String
  fullPath : String
  found : Bool
  parsed : Bool
  data : Json
  error : Option String

/-- One control verdict: id, PASS/FAIL status, human-readable details. -/
structure Verdict where
  id : String
  status : String
  details : String
deriving DecidableEq

/-- Per-severity vulnerability counts (the five fixed Trivy severities). -/
structure TrivyCounts where
  CRITICAL : Nat
  HIGH : Nat
  MEDIUM : Nat
  LOW : Nat
  UNKNOWN : Nat
deriving DecidableEq

/-- Vulnerability summary: the total and the per-severity histogram. -/
structure TrivySummary where
  total : Nat
  counts : TrivyCounts
deriving DecidableEq

/-- Hardening summary: level histogram in insertion order, as the
JavaScript object `counts` built by `bump`. -/
structure DockleSummary where
  counts : List (String × Nat)
deriving DecidableEq

/-- Result of `inferGitleaksFindingCount`: a count or an error. -/
structure GitleaksCount where
  count : Option Int
  error : Option String
deriving DecidableEq

/-- Outcome of the underlying file read in `readJsonArtifact`. -/
inductive FsOutcome where
  | ok (content : String)
  | enoent
  | err (msg : String)
deriving DecidableEq

/-- Environment configuration consumed by the script: artifact directory
and the optional pipeline metadata variables. -/
structure Config where
  artifactDir : String
  githubSha : Option String
  githubRef : Option String
  githubRepository : Option String
  githubRunId : Option String
  githubServerUrl : Option String

/-- The artifact reader: classifies one file as absent, present-but-invalid
or present-and-parsed, never failing. `parse` stands for `JSON.parse`. -/
def readJsonArtifact (dir fileName : String) (outcome : FsOutcome)
    (parse : String → Except String Json) : Artifact :=
  let fullPath := dir ++ "/" ++ fileName
  match outcome with
  | .ok content =>
    match parse content with
    | .ok v =>
      { name := fileName, fullPath := fullPath, found := true, parsed := true,
        data := v, error := none }
    | .error parseMsg =>
      { name := fileName, fullPath := fullPath, found := true, parsed := false,
        data := Json.null, error := some ("Invalid JSON: " ++ parseMsg) }
  | .enoent =>
    { name := fileName, fullPath := fullPath, found := false, parsed := false,
      data := Json.null, error := some "File not found" }
  | .err msg =>
    { name := fileName, fullPath := fullPath, found := true, parsed := false,
      data := Json.null, error := some ("Read error: " ++ msg) }

/-- `inferGitleaksFindingCount`: recognizes a bare array, four array-field
aliases in priority order, then a numeric `total` field. -/
def inferGitleaksFindingCount (data : Json) : GitleaksCount :=
  match data with
  | .arr xs => { count := some (xs.length : Int), error := none }
  | .obj _ =>
    match jsGetArr? data "findings", jsGetArr? data "Leaks",
          jsGetArr? data "leaks", jsGetArr? data "results",
          jsGet data "total" with
    | some xs, _, _, _, _ => { count := some (xs.length : Int), error := none }
    | none, some xs, _, _, _ => { count := some (xs.length : Int), error := none }
    | none, none, some xs, _, _ => { count := some (xs.length : Int), error := none }
    | none, none, none, some xs, _ => { count := some (xs.length : Int), error := none }
    | none, none, none, none, some (.num t) => { count := some t, error := none }
    | _, _, _, _, _ =>
      { count := none,
        error := some "Unknown Gitleaks JSON structure (no findings array found)" }
  | _ =>
    { count := none,
      error := some "Unknown Gitleaks JSON structure (no findings array found)" }

def zeroTrivyCounts : TrivyCounts := ⟨0, 0, 0, 0, 0⟩

/-- Dictionary read `counts[sev]` on the fixed-key severity histogram. -/
def countOf (c : TrivyCounts) (sev : String) : Nat :=
  if sev = "CRITICAL" then c.CRITICAL
  else if sev = "HIGH" then c.HIGH
  else if sev = "MEDIUM" then c.MEDIUM
  else if sev = "LOW" then c.LOW
  else if sev = "UNKNOWN" then c.UNKNOWN
  else 0

/-- Dictionary increment `counts[sev] += 1` for a normalized severity. -/
def addSev (c : TrivyCounts) (sev : String) : TrivyCounts :=
  if sev = "CRITICAL" then { c with CRITICAL := c.CRITICAL + 1 }
  else if sev = "HIGH" then { c with HIGH := c.HIGH + 1 }
  else if sev = "MEDIUM" then { c with MEDIUM := c.MEDIUM + 1 }
  else if sev = "LOW" then { c with LOW := c.LOW + 1 }
  else if sev = "UNKNOWN" then { c with UNKNOWN := c.UNKNOWN + 1 }
  else c

/-- The raw severity of one vulnerability entry:
`vuln && vuln.Severity ? String(vuln.Severity).toUpperCase() : 'UNKNOWN'`. -/
def severityRaw (vuln : Json) : String :=
  if jsTruthy vuln then
    match jsGet vuln "Severity" with
    | some sv => if jsTruthy sv then toUpperCase (jsToString sv) else "UNKNOWN"
    | none => "UNKNOWN"
  else "UNKNOWN"

/-- The normalized severity: anything outside the five known labels is
folded into UNKNOWN. -/
def severityOf (vuln : Json) : String :=
  let sev := severityRaw vuln
  if sev ∈ TRIVY_SEVERITIES then sev else "UNKNOWN"

/-- `summarizeTrivyVulns`: recognizes an object with an array `Results`
field; counts every vulnerability entry by normalized severity. -/
def summarizeTrivyVulns (data : Json) : Option TrivySummary :=
  if !jsTruthy data || !typeofObject data || !isArrOpt (jsGet data "Results") then
    none
  else
    let counts :=
      (getArrD (jsGet data "Results")).foldl
        (fun cs result =>
          if !jsTruthy result || !isArrOpt (jsGet result "Vulnerabilities") then cs
          else
            (getArrD (jsGet result "Vulnerabilities")).foldl
              (fun cs2 vuln => addSev cs2 (severityOf vuln)) cs)
        zeroTrivyCounts
    let total := TRIVY_SEVERITIES.foldl (fun acc sev => acc + countOf counts sev) 0
    some { total := total, counts := counts }

/-- `formatTrivySummary`: one-line rendering of a vulnerability summary. -/
def formatTrivySummary (label : String) (summary : TrivySummary) : String :=
  "Trivy " ++ label ++ ": total " ++ toString summary.total ++ ", " ++
    String.intercalate ", "
      (TRIVY_SEVERITIES.map (fun sev => sev ++ ": " ++ toString (countOf summary.counts sev)))

/-- The JavaScript-object update `counts[key] = (counts[key] || 0) + 1`,
preserving insertion order of keys. -/
def incrCount : List (String × Nat) → String → List (String × Nat)
  | [], k => [(k, 1)]
  | (k2, v) :: rest, k =>
    if k2 = k then (k2, v + 1) :: rest else (k2, v) :: incrCount rest k

/-- The `bump` closure of `summarizeDockleFindings`: ignores falsy levels,
uppercases the level and increments its count. -/
def bumpLevel (cs : List (String × Nat)) (level : Option Json) : List (String × Nat) :=
  match level with
  | none => cs
  | some l => if !jsTruthy l then cs else incrCount cs (toUpperCase (jsToString l))

/-- `summarizeDockleFindings`: merges the three recognized shapes (top-level
array of leveled findings with optional leveled sub-details, object with a
`details` array, object with a scalar `level`); primitives are unrecognized. -/
def summarizeDockleFindings (data : Json) : Option DockleSummary :=
  match data with
  | .arr items =>
    let counts :=
      items.foldl
        (fun cs item =>
          let cs1 :=
            if jsTruthy item && jsTruthyOpt (jsGet item "level") then
              bumpLevel cs (jsGet item "level")
            else cs
          if jsTruthy item && isArrOpt (jsGet item "details") then
            (getArrD (jsGet item "details")).foldl
              (fun cs2 d =>
                if jsTruthy d && jsTruthyOpt (jsGet d "level") then
                  bumpLevel cs2 (jsGet d "level")
                else cs2)
              cs1
          else cs1)
        []
    if counts.isEmpty then some ⟨[]⟩ else some ⟨counts⟩
  | .obj _ =>
    let cs1 :=
      if isArrOpt (jsGet data "details") then
        (getArrD (jsGet data "details")).foldl
          (fun cs2 d =>
            if jsTruthy d && jsTruthyOpt (jsGet d "level") then
              bumpLevel cs2 (jsGet d "level")
            else cs2)
          []
      else []
    let counts :=
      if jsTruthyOpt (jsGet data "level") then bumpLevel cs1 (jsGet data "level") else cs1
    if counts.isEmpty then some ⟨[]⟩ else some ⟨counts⟩
  | _ => none

/-- SEC-01 (no secrets): fails on missing file, invalid JSON, indeterminate
structure or a positive finding count. -/
def evaluateSec01 (gitleaksArtifact : Artifact) : Verdict :=
  if !gitleaksArtifact.found then
    { id := SEC01, status := STATUS_FAIL, details := FILES_gitleaks ++ " not found" }
  else if !gitleaksArtifact.parsed then
    { id := SEC01, status := STATUS_FAIL,
      details := FILES_gitleaks ++ " is not valid JSON (" ++ optStr gitleaksArtifact.error ++ ")" }
  else
    let r := inferGitleaksFindingCount gitleaksArtifact.data
    if jsStrOptTruthy r.error then
      { id := SEC01, status := STATUS_FAIL,
        details := "Unable to determine findings in " ++ FILES_gitleaks ++ ": " ++ optStr r.error }
    else if jsNumOptGtZero r.count then
      { id := SEC01, status := STATUS_FAIL,
        details := "Gitleaks detected " ++ toString ((r.count).getD 0) ++ " potential secret(s)" }
    else
      { id := SEC01, status := STATUS_PASS,
        details := "No secrets detected by Gitleaks (0 findings)" }

/-- SEC-02 (scan coverage): both Trivy artifacts present and valid JSON;
content is summarized only for the details text. -/
def evaluateSec02 (trivyFsArtifact trivyImageArtifact : Artifact)
    (fsSummary imageSummary : Option TrivySummary) : Verdict :=
  let issues :=
    (if !trivyFsArtifact.found then [FILES_trivyFs ++ " not found"]
     else if !trivyFsArtifact.parsed then
       [FILES_trivyFs ++ " is not valid JSON (" ++ optStr trivyFsArtifact.error ++ ")"]
     else []) ++
    (if !trivyImageArtifact.found then [FILES_trivyImage ++ " not found"]
     else if !trivyImageArtifact.parsed then
       [FILES_trivyImage ++ " is not valid JSON (" ++ optStr trivyImageArtifact.error ++ ")"]
     else [])
  if 0 < issues.length then
    { id := SEC02, status := STATUS_FAIL, details := String.intercalate "; " issues }
  else
    let fsSummaryText :=
      match fsSummary with
      | some s => formatTrivySummary "FS" s
      | none => "Trivy FS: summary unavailable (unexpected JSON structure)"
    let imageSummaryText :=
      match imageSummary with
      | some s => formatTrivySummary "Image" s
      | none => "Trivy image: summary unavailable (unexpected JSON structure)"
    { id := SEC02, status := STATUS_PASS,
      details := FILES_trivyFs ++ " and " ++ FILES_trivyImage ++ " present and valid. " ++
        fsSummaryText ++ "; " ++ imageSummaryText }

/-- SEC-03 (hardening): fails on missing/invalid file or findings at the
worst three levels; an unrecognizable summary is treated as informational. -/
def evaluateSec03 (dockleArtifact : Artifact) (dockleSummary : Option DockleSummary) : Verdict :=
  if !dockleArtifact.found then
    { id := SEC03, status := STATUS_FAIL, details := FILES_dockle ++ " not found" }
  else if !dockleArtifact.parsed then
    { id := SEC03, status := STATUS_FAIL,
      details := FILES_dockle ++ " is not valid JSON (" ++ optStr dockleArtifact.error ++ ")" }
  else
    match dockleSummary with
    | none =>
      { id := SEC03, status := STATUS_PASS,
        details := FILES_dockle ++
          " present and valid (unable to infer finding levels; treating as informational)" }
    | some summary =>
      let counts := summary.counts
      let fatal := jsOrNum (counts.lookup "FATAL") (jsOrNum (counts.lookup "FATL") 0)
      let error := jsOrNum (counts.lookup "ERROR") 0
      let warn := jsOrNum (counts.lookup "WARN") 0
      let parts :=
        String.intercalate ", "
          ((counts.filter (fun p => 0 < p.2)).map (fun p => p.1 ++ ": " ++ toString p.2))
      let summaryText := if parts = "" then "no findings" else parts
      if 0 < fatal ∨ 0 < error ∨ 0 < warn then
        { id := SEC03, status := STATUS_FAIL,
          details := "Dockle reported hardening issues (" ++ summaryText ++ ")" }
      else
        { id := SEC03, status := STATUS_PASS,
          details := "Dockle scan clean (" ++ summaryText ++ ")" }

/-- SEC-04 (no critical vulnerabilities): both artifacts must be present,
valid and summarizable, with a combined CRITICAL count of zero. -/
def evaluateSec04 (trivyFsArtifact trivyImageArtifact : Artifact)
    (fsSummary imageSummary : Option TrivySummary) : Verdict :=
  let problems :=
    (if !trivyFsArtifact.found || !trivyFsArtifact.parsed then
       ["Trivy FS scan missing or invalid"]
     else []) ++
    (if !trivyImageArtifact.found || !trivyImageArtifact.parsed then
       ["Trivy image scan missing or invalid"]
     else [])
  if 0 < problems.length then
    { id := SEC04, status := STATUS_FAIL, details := String.intercalate "; " problems }
  else
    match fsSummary, imageSummary with
    | some fsSum, some imageSum =>
      let fsCrit := fsSum.counts.CRITICAL
      let imgCrit := imageSum.counts.CRITICAL
      let totalCrit := fsCrit + imgCrit
      let fsText := formatTrivySummary "FS" fsSum
      let imgText := formatTrivySummary "Image" imageSum
      if 0 < totalCrit then
        { id := SEC04, status := STATUS_FAIL,
          details := "CRITICAL vulnerabilities detected. " ++ fsText ++ "; " ++ imgText }
      else
        { id := SEC04, status := STATUS_PASS,
          details := "No CRITICAL vulnerabilities in Trivy scans. " ++ fsText ++ "; " ++ imgText }
    | _, _ =>
      { id := SEC04, status := STATUS_FAIL,
        details := "Unable to interpret Trivy JSON structure to count vulnerabilities" }

/-- SEC-05 (inventory present): the SBOM artifact is present and valid JSON. -/
def evaluateSec05 (sbomArtifact : Artifact) : Verdict :=
  if !sbomArtifact.found then
    { id := SEC05, status := STATUS_FAIL, details := FILES_sbom ++ " not found" }
  else if !sbomArtifact.parsed then
    { id := SEC05, status := STATUS_FAIL,
      details := FILES_sbom ++ " is not valid JSON (" ++ optStr sbomArtifact.error ++ ")" }
  else
    { id := SEC05, status := STATUS_PASS,
      details := FILES_sbom ++ " present and valid (SBOM generated)" }

/-- `computeOverallStatus`: PASS exactly when every verdict is PASS. -/
def computeOverallStatus (controls : List Verdict) : String :=
  if controls.all (fun c => c.status == STATUS_PASS) then STATUS_PASS else STATUS_FAIL

/-- `escapeMarkdown` on the character list: every `|` becomes `\|`. -/
def escPipes : List Char → List Char
  | [] => []
  | c :: rest => if c = '|' then '\\' :: '|' :: escPipes rest else c :: escPipes rest

/-- `escapeMarkdown`: global replacement of `|` by `\|`. -/
def escapeMarkdown (text : String) : String := ⟨escPipes text.data⟩

/-- One table row of the control summary: `| id | status | details |`
with the details escaped. -/
def renderControlRow (control : Verdict) : String :=
  "| " ++ control.id ++ " | " ++ control.status ++ " | " ++
    escapeMarkdown control.details ++ " |"

/-- `renderMarkdown`: the full report document from the verdicts, overall
status, timestamp and pipeline metadata. -/
def renderMarkdown (cfg : Config) (controls : List Verdict)
    (overallStatus timestamp : String) : String :=
  let gitSha := jsEnvOr cfg.githubSha "n/a"
  let gitRef := jsEnvOr cfg.githubRef "n/a"
  let repo := jsEnvOr cfg.githubRepository "n/a"
  let runId : Option String :=
    match cfg.githubRunId with
    | some s => if s = "" then none else some s
    | none => none
  let serverUrl := jsEnvOr cfg.githubServerUrl "https://github.com"
  let runUrl :=
    match runId with
    | some rid =>
      if repo != "" then serverUrl ++ "/" ++ repo ++ "/actions/runs/" ++ rid else "n/a"
    | none => "n/a"
  let headerLines : List String :=
    ["# Compliance Report", "",
     "Generated at: `" ++ timestamp ++ "`", "",
     "## Pipeline Context", "",
     "- Commit: `" ++ gitSha ++ "`",
     "- Ref: `" ++ gitRef ++ "`",
     "- Repository: `" ++ repo ++ "`",
     "- Run URL: " ++ runUrl, "",
     "## Control Summary", "",
     "| Control | Status | Details |",
     "|---------|--------|---------|"]
  let rowLines := controls.map renderControlRow
  let overallLines : List String :=
    ["", "## Overall Status", "", "**" ++ overallStatus ++ "**", ""]
  let failingControls := controls.filter (fun c => c.status == STATUS_FAIL)
  let failLines : List String :=
    if 0 < failingControls.length then
      ["### Failing Controls", ""] ++
        failingControls.map (fun c => "- " ++ c.id ++ ": " ++ c.details) ++ [""]
    else []
  String.intercalate "\n" (headerLines ++ rowLines ++ overallLines ++ failLines)

/-- Observable outcome of one run of `main`: the two verdict lists, the
two rendered documents, the write outcome and the process exit code. -/
structure RunResult where
  fileControls : List Verdict
  fileDoc : String
  consoleControls : List Verdict
  consoleDoc : String
  writeSucceeded : Bool
  exitCode : Nat

/-- The five evidence-based control verdicts of one run, in evaluation
order, with the summaries derived exactly as `main` derives them. -/
def mainControls (gitleaks trivyFs trivyImage dockle sbom : Artifact) : List Verdict :=
  let trivyFsSummary := if trivyFs.parsed then summarizeTrivyVulns trivyFs.data else none
  let trivyImageSummary := if trivyImage.parsed then summarizeTrivyVulns trivyImage.data else none
  let dockleSummary := if dockle.parsed then summarizeDockleFindings dockle.data else none
  [evaluateSec01 gitleaks,
   evaluateSec02 trivyFs trivyImage trivyFsSummary trivyImageSummary,
   evaluateSec03 dockle dockleSummary,
   evaluateSec04 trivyFs trivyImage trivyFsSummary trivyImageSummary,
   evaluateSec05 sbom]

/-- The path of the persisted report document. -/
def reportPath (cfg : Config) : String := cfg.artifactDir ++ "/compliance-report.md"

/-- The tentative SEC-06 verdict rendered into the persisted document. -/
def sec06Tentative : Verdict :=
  { id := SEC06, status := STATUS_PASS, details := "Compliance report generated" }

/-- The actual SEC-06 verdict, decided by the outcome of the write. -/
def sec06Actual (cfg : Config) (writeSucceeds : Bool) : Verdict :=
  if writeSucceeds then
    { id := SEC06, status := STATUS_PASS,
      details := "Report generated at " ++ reportPath cfg }
  else
    { id := SEC06, status := STATUS_FAIL,
      details := "Failed to generate report at " ++ reportPath cfg }

/-- The run orchestrator `main`, as a function of the five artifact read
results, the outcome of the report file write, and the timestamp. The
persisted document is rendered with a tentative PASS for SEC-06; the
console document and the exit code use the actual write outcome. -/
def main (cfg : Config) (gitleaks trivyFs trivyImage dockle sbom : Artifact)
    (writeSucceeds : Bool) (timestamp : String) : RunResult :=
  let controls := mainControls gitleaks trivyFs trivyImage dockle sbom
  let allControlsForFile := controls ++ [sec06Tentative]
  let overallStatusForFile := computeOverallStatus allControlsForFile
  let markdownContent := renderMarkdown cfg allControlsForFile overallStatusForFile timestamp
  let sec06 := sec06Actual cfg writeSucceeds
  let allControlsForConsole := controls ++ [sec06]
  let finalOverallStatus := computeOverallStatus allControlsForConsole
  let consoleMarkdown := renderMarkdown cfg allControlsForConsole finalOverallStatus timestamp
  { fileControls := allControlsForFile,
    fileDoc := markdownContent,
    consoleControls := allControlsForConsole,
    consoleDoc := consoleMarkdown,
    writeSucceeded := writeSucceeds,
    exitCode := if !writeSucceeds || finalOverallStatus == STATUS_FAIL then 1 else 0 }

/-- Specification vocabulary: a value has the shape the vulnerability
summarizer recognizes, namely an object with an array-valued `Results`
field. -/
def hasResultsArray (j : Json) : Bool :=
  match j with
  | .obj _ => isArrOpt (jsGet j "Results")
  | _ => false

/-- Specification vocabulary: a primitive JSON value (not an array, not an
object). -/
def jsIsPrimitive : Json → Bool
  | .null => true
  | .bool _ => true
  | .num _ => true
  | .str _ => true
  | _ => false

/-- Specification vocabulary: the count recorded under a level key, zero
when the key is absent. -/
def lookupD (counts : List (String × Nat)) (k : String) : Nat :=
  (counts.lookup k).getD 0

/-- Count of unescaped pipes in a character list, tracking the previous
character: a `|` counts unless immediately preceded by a backslash. -/
def cupAux : Option Char → List Char → Nat
  | _, [] => 0
  | prev, c :: rest =>
    (if c = '|' ∧ prev ≠ some '\\' then 1 else 0) + cupAux (some c) rest

/-- Number of unescaped table-delimiter pipes in a rendered string. -/
def countUnescapedPipes (s : String) : Nat := cupAux none s.data

/-- The character preceding the continuation after consuming a list. -/
def lastOptC : Option Char → List Char → Option Char
  | p, [] => p
  | _, c :: rest => lastOptC (some c) rest

/-- Test fixture: a Trivy report with a single vulnerability entry
carrying the given severity label. -/
def mkTrivyReport (sev : String) : Json :=
  Json.obj [("Results",
    Json.arr [Json.obj [("Vulnerabilities",
      Json.arr [Json.obj [("Severity", Json.str sev)]])]])]

/-- Test fixture: configuration with no pipeline metadata. -/
def cfg0 : Config := ⟨"artifacts", none, none, none, none, none⟩

/-- Test fixture: an absent artifact. -/
def missingArtifact (nm : String) : Artifact :=
  ⟨nm, "artifacts/" ++ nm, false, false, Json.null, some "File not found"⟩

/-- Test fixture: a present, valid artifact holding the given value. -/
def validArtifact (nm : String) (v : Json) : Artifact :=
  ⟨nm, "artifacts/" ++ nm, true, true, v, none⟩

/-- The exit-code condition of `main`, characterized over any verdict
list: zero exactly when the write succeeded and every verdict passed. -/
theorem exitCond_eq_zero_iff (controls : List Verdict) (w : Bool) :
    ((if !w || (computeOverallStatus controls == STATUS_FAIL) then (1 : Nat) else 0) = 0) ↔
      (w = true ∧ ∀ v ∈ controls, v.status = STATUS_PASS) := by
  cases w with
  | false => simp
  | true =>
    cases hall : controls.all (fun c => c.status == STATUS_PASS) with
    | true =>
      simp only [List.all_eq_true, beq_iff_eq] at hall
      simp [computeOverallStatus, List.all_eq_true, hall, STATUS_PASS, STATUS_FAIL]
    | false =>
      have hov : computeOverallStatus controls = STATUS_FAIL := by
        simp [computeOverallStatus, hall]
      simp only [hov, beq_self_eq_true, Bool.or_true, if_pos]
      norm_num
      simp only [List.all_eq_false, beq_iff_eq] at hall
      exact hall

/-- C1: the process exit status is zero if and only if the report write
succeeded and every one of the six final control verdicts (including the
actual SEC-06 outcome) has status PASS; in every other case it is
non-zero. -/
theorem exitCode_zero_iff_write_and_all_pass
    (cfg : Config) (gitleaks trivyFs trivyImage dockle sbom : Artifact)
    (w : Bool) (ts : String) :
    (main cfg gitleaks trivyFs trivyImage dockle sbom w ts).exitCode = 0 ↔
      (w = true ∧
        ∀ v ∈ (main cfg gitleaks trivyFs trivyImage dockle sbom w ts).consoleControls,
          v.status = STATUS_PASS) :=
  exitCond_eq_zero_iff (main cfg gitleaks trivyFs trivyImage dockle sbom w ts).consoleControls w

/-- C3: the persisted document is rendered from verdicts whose SEC-06
entry is the tentative PASS, while the console document's SEC-06 entry is
PASS exactly when the file write actually succeeded. -/
theorem sec06_tentative_in_file_actual_in_console
    (cfg : Config) (g tf ti dk sb : Artifact) (w : Bool) (ts : String) :
    (main cfg g tf ti dk sb w ts).fileControls[5]? =
        some ⟨SEC06, STATUS_PASS, "Compliance report generated"⟩ ∧
      (main cfg g tf ti dk sb w ts).fileDoc =
        renderMarkdown cfg (main cfg g tf ti dk sb w ts).fileControls
          (computeOverallStatus (main cfg g tf ti dk sb w ts).fileControls) ts ∧
      (((main cfg g tf ti dk sb w ts).consoleControls[5]?.map Verdict.status =
          some STATUS_PASS) ↔ w = true) := by
  refine ⟨rfl, ?_, ?_⟩
  · simp only [main]
  · cases w with
    | true =>
      show (some STATUS_PASS = some STATUS_PASS) ↔ (true = true)
      simp
    | false =>
      show (some STATUS_FAIL = some STATUS_PASS) ↔ (false = true)
      simp [STATUS_PASS, STATUS_FAIL]

/-- C2 counterexample: the dockle artifact is present and valid but its
JSON has an unrecognized shape (a bare number), the hardening summarizer
signals "unavailable" — and SEC-03 nevertheless PASSes, so the claimed
fail-closed invariant over unrecognized shapes is false. -/
theorem sec03_passes_on_unrecognized_shape :
    summarizeDockleFindings (Json.num 5) = none ∧
      (evaluateSec03 (validArtifact "dockle.json" (Json.num 5))
        (summarizeDockleFindings (Json.num 5))).status = STATUS_PASS :=
  ⟨rfl, rfl⟩

/-- C2 amended: missing or unparseable evidence yields FAIL for every
control (for SEC-06 the evidence is the write outcome); an indeterminate
finding count fails SEC-01 and a missing summary fails SEC-04; but SEC-02,
SEC-03 and SEC-05 do not inspect the shape of valid JSON, so for them an
unrecognized shape does not force FAIL. -/
theorem fail_closed_amended
    (a b : Artifact) (s : Option DockleSummary) (t u : Option TrivySummary)
    (cfg : Config) (g tf ti dk sb : Artifact) (ts : String) :
    (a.found = false ∨ a.parsed = false →
      (evaluateSec01 a).status = STATUS_FAIL ∧
        (evaluateSec02 a b t u).status = STATUS_FAIL ∧
        (evaluateSec02 b a t u).status = STATUS_FAIL ∧
        (evaluateSec03 a s).status = STATUS_FAIL ∧
        (evaluateSec04 a b t u).status = STATUS_FAIL ∧
        (evaluateSec04 b a t u).status = STATUS_FAIL ∧
        (evaluateSec05 a).status = STATUS_FAIL) ∧
      (jsStrOptTruthy (inferGitleaksFindingCount a.data).error = true →
        (evaluateSec01 a).status = STATUS_FAIL) ∧
      (t = none ∨ u = none → (evaluateSec04 a b t u).status = STATUS_FAIL) ∧
      (main cfg g tf ti dk sb false ts).consoleControls[5]?.map Verdict.status =
        some STATUS_FAIL := by
  refine ⟨?_, ?_, ?_, rfl⟩
  · intro h
    refine ⟨?_, ?_, ?_, ?_, ?_, ?_, ?_⟩
    · rcases h with h | h
      · simp [evaluateSec01, h]
      · cases hf : a.found <;> simp [evaluateSec01, h, hf]
    · rcases h with h | h
      · cases hp : a.parsed <;>
          simp [evaluateSec02, h, hp, List.singleton_append]
      · cases hf : a.found <;>
          simp [evaluateSec02, h, hf, List.singleton_append]
    · rcases h with h | h
      · cases hp : a.parsed <;> cases hbf : b.found <;> cases hbp : b.parsed <;>
          simp [evaluateSec02, h, hp, hbf, hbp, List.singleton_append]
      · cases hf : a.found <;> cases hbf : b.found <;> cases hbp : b.parsed <;>
          simp [evaluateSec02, h, hf, hbf, hbp, List.singleton_append]
    · rcases h with h | h
      · simp [evaluateSec03, h]
      · cases hf : a.found <;> simp [evaluateSec03, h, hf]
    · rcases h with h | h
      · simp [evaluateSec04, h, List.singleton_append]
      · cases hf : a.found <;> simp [evaluateSec04, h, hf, List.singleton_append]
    · rcases h with h | h <;> cases hbf : b.found <;> cases hbp : b.parsed <;>
        simp [evaluateSec04, h, hbf, hbp, List.singleton_append]
    · rcases h with h | h
      · simp [evaluateSec05, h]
      · cases hf : a.found <;> simp [evaluateSec05, h, hf]
  · intro h
    cases hf : a.found with
    | false => simp [evaluateSec01, hf]
    | true =>
      cases hp : a.parsed with
      | false => simp [evaluateSec01, hf, hp]
      | true => simp [evaluateSec01, hf, hp, h]
  · intro h
    rcases h with rfl | rfl
    · cases haf : a.found <;> cases hap : a.parsed <;>
        cases hbf : b.found <;> cases hbp : b.parsed <;>
        simp [evaluateSec04, haf, hap, hbf, hbp, List.singleton_append]
    · cases t <;> cases haf : a.found <;> cases hap : a.parsed <;>
        cases hbf : b.found <;> cases hbp : b.parsed <;>
        simp [evaluateSec04, haf, hap, hbf, hbp, List.singleton_append]

/-- Witness for the amended fail-closed theorem: concrete inputs
discharging each hypothesis. -/
theorem fail_closed_amended_witness :
    (evaluateSec01 (missingArtifact "gitleaks.json")).status = STATUS_FAIL ∧
      (evaluateSec01 (validArtifact "gitleaks.json" (Json.obj []))).status = STATUS_FAIL ∧
      (evaluateSec04 (validArtifact "trivy-fs.json" (Json.num 1))
        (validArtifact "trivy-image.json" (Json.num 1)) none none).status = STATUS_FAIL := by
  refine ⟨?_, ?_, ?_⟩
  · exact ((fail_closed_amended (missingArtifact "gitleaks.json")
      (missingArtifact "trivy-fs.json") none none none cfg0
      (missingArtifact "g") (missingArtifact "t") (missingArtifact "t2")
      (missingArtifact "d") (missingArtifact "s") "ts").1 (Or.inl rfl)).1
  · exact (fail_closed_amended (validArtifact "gitleaks.json" (Json.obj []))
      (missingArtifact "trivy-fs.json") none none none cfg0
      (missingArtifact "g") (missingArtifact "t") (missingArtifact "t2")
      (missingArtifact "d") (missingArtifact "s") "ts").2.1 rfl
  · exact (fail_closed_amended (validArtifact "trivy-fs.json" (Json.num 1))
      (validArtifact "trivy-image.json" (Json.num 1)) none none none cfg0
      (missingArtifact "g") (missingArtifact "t") (missingArtifact "t2")
      (missingArtifact "d") (missingArtifact "s") "ts").2.2.1 (Or.inl rfl)

/-- C4 counterexample: an object with none of the recognized fields is
claimed to yield "unavailable", but the hardening summarizer returns the
empty-but-valid summary for it. -/
theorem dockle_empty_object_yields_empty_summary :
    summarizeDockleFindings (Json.obj []) = some ⟨[]⟩ ∧
      summarizeDockleFindings (Json.obj []) ≠ none := by
  refine ⟨rfl, ?_⟩
  decide

/-- The final step of the hardening summarizer always yields a summary. -/
theorem dockle_some_of_ite (c : List (String × Nat)) :
    (if c.isEmpty then some (⟨[]⟩ : DockleSummary) else some ⟨c⟩) ≠ none := by
  split <;> simp

/-- C4 amended: the hardening summarizer returns "unavailable" exactly for
primitive values (null, boolean, number, string); an object with none of
the recognized fields yields the empty-but-valid summary with empty
counts, just like a recognized shape with zero findings. -/
theorem dockle_unavailable_iff_primitive (j : Json) :
    (summarizeDockleFindings j = none ↔ jsIsPrimitive j = true) ∧
      summarizeDockleFindings (Json.obj []) = some ⟨[]⟩ ∧
      summarizeDockleFindings (Json.arr []) = some ⟨[]⟩ ∧
      summarizeDockleFindings (Json.obj [("details", Json.arr [])]) = some ⟨[]⟩ := by
  refine ⟨?_, rfl, rfl, rfl⟩
  cases j with
  | null => simp [summarizeDockleFindings, jsIsPrimitive]
  | bool b => simp [summarizeDockleFindings, jsIsPrimitive]
  | num n => simp [summarizeDockleFindings, jsIsPrimitive]
  | str s => simp [summarizeDockleFindings, jsIsPrimitive]
  | arr items =>
    exact iff_of_false (dockle_some_of_ite _) (by simp [jsIsPrimitive])
  | obj fields =>
    exact iff_of_false (dockle_some_of_ite _) (by simp [jsIsPrimitive])

/-- The total computed by the severity fold is the sum of the five
per-severity counts. -/
theorem trivy_total_foldl (c : TrivyCounts) :
    TRIVY_SEVERITIES.foldl (fun acc sev => acc + countOf c sev) 0 =
      c.CRITICAL + c.HIGH + c.MEDIUM + c.LOW + c.UNKNOWN := by
  show 0 + c.CRITICAL + c.HIGH + c.MEDIUM + c.LOW + c.UNKNOWN = _
  omega

/-- C5: whenever the vulnerability summarizer produces a summary, its
total equals the sum of the five per-severity counts; and it produces no
summary exactly when the input is not an object with an array-valued
Results field. -/
theorem trivy_total_invariant (j : Json) :
    (∀ s, summarizeTrivyVulns j = some s →
      s.total = s.counts.CRITICAL + s.counts.HIGH + s.counts.MEDIUM +
        s.counts.LOW + s.counts.UNKNOWN) ∧
      (summarizeTrivyVulns j = none ↔ hasResultsArray j = false) := by
  constructor
  · intro s hs
    unfold summarizeTrivyVulns at hs
    split at hs
    · exact Option.noConfusion hs
    · injection hs with hs2
      subst hs2
      exact trivy_total_foldl _
  · cases j with
    | null => simp [summarizeTrivyVulns, hasResultsArray, jsTruthy]
    | bool b =>
      cases b <;> simp [summarizeTrivyVulns, hasResultsArray, jsTruthy, typeofObject]
    | num n => simp [summarizeTrivyVulns, hasResultsArray, typeofObject]
    | str s => simp [summarizeTrivyVulns, hasResultsArray, typeofObject]
    | arr items =>
      simp [summarizeTrivyVulns, hasResultsArray, jsTruthy, typeofObject, jsGet, isArrOpt]
    | obj fields =>
      cases hr : jsGet (Json.obj fields) "Results" with
      | none =>
        simp [summarizeTrivyVulns, hasResultsArray, jsTruthy, typeofObject, hr, isArrOpt]
      | some v =>
        cases v <;>
          simp [summarizeTrivyVulns, hasResultsArray, jsTruthy, typeofObject, hr, isArrOpt]

/-- Witness for the vulnerability-summary invariant at concrete inputs. -/
theorem trivy_total_invariant_witness :
    (⟨0, zeroTrivyCounts⟩ : TrivySummary).total =
        (⟨0, zeroTrivyCounts⟩ : TrivySummary).counts.CRITICAL +
        (⟨0, zeroTrivyCounts⟩ : TrivySummary).counts.HIGH +
        (⟨0, zeroTrivyCounts⟩ : TrivySummary).counts.MEDIUM +
        (⟨0, zeroTrivyCounts⟩ : TrivySummary).counts.LOW +
        (⟨0, zeroTrivyCounts⟩ : TrivySummary).counts.UNKNOWN ∧
      (summarizeTrivyVulns (Json.num 3) = none ↔ hasResultsArray (Json.num 3) = false) :=
  ⟨(trivy_total_invariant (Json.obj [("Results", Json.arr [])])).1 ⟨0, zeroTrivyCounts⟩ rfl,
    (trivy_total_invariant (Json.num 3)).2⟩

/-- C8: when the secret artifact is found and valid and its data is an
object with none of the four recognized array fields and a numeric
`total` that is not greater than zero (including negative values), SEC-01
passes with the zero-findings detail, because the code tests count > 0. -/
theorem sec01_nonpositive_total_passes (fields : List (String × Json)) (t : Int)
    (a : Artifact)
    (haf : a.found = true) (hap : a.parsed = true) (hdata : a.data = Json.obj fields)
    (h1 : jsGetArr? (Json.obj fields) "findings" = none)
    (h2 : jsGetArr? (Json.obj fields) "Leaks" = none)
    (h3 : jsGetArr? (Json.obj fields) "leaks" = none)
    (h4 : jsGetArr? (Json.obj fields) "results" = none)
    (ht : jsGet (Json.obj fields) "total" = some (Json.num t))
    (hle : t ≤ 0) :
    evaluateSec01 a =
      ⟨SEC01, STATUS_PASS, "No secrets detected by Gitleaks (0 findings)"⟩ := by
  have hinfer : inferGitleaksFindingCount a.data = ⟨some t, none⟩ := by
    rw [hdata]
    simp [inferGitleaksFindingCount, h1, h2, h3, h4, ht]
  have hng : ¬ (0 < t) := by omega
  simp [evaluateSec01, haf, hap, hinfer, jsStrOptTruthy, jsNumOptGtZero, hng]

/-- Witness: a negative `total` of -3 makes SEC-01 pass. -/
theorem sec01_nonpositive_total_passes_witness :
    evaluateSec01 (validArtifact "gitleaks.json" (Json.obj [("total", Json.num (-3))])) =
      ⟨SEC01, STATUS_PASS, "No secrets detected by Gitleaks (0 findings)"⟩ :=
  sec01_nonpositive_total_passes [("total", Json.num (-3))] (-3) _
    rfl rfl rfl rfl rfl rfl rfl rfl (by norm_num)

/-- `jsOrNum` is positive exactly when the property or the fallback is. -/
theorem jsOrNum_pos (o : Option Nat) (b : Nat) :
    0 < jsOrNum o b ↔ 0 < o.getD 0 ∨ 0 < b := by
  cases o with
  | none => simp [jsOrNum]
  | some v =>
    by_cases hv : v = 0
    · simp [jsOrNum, hv]
    · simp [jsOrNum, hv]
      omega

/-- The SEC-03 failure condition, translated to per-key counts. -/
theorem sec03_cond_iff (counts : List (String × Nat)) :
    (0 < jsOrNum (counts.lookup "FATAL") (jsOrNum (counts.lookup "FATL") 0) ∨
      0 < jsOrNum (counts.lookup "ERROR") 0 ∨
      0 < jsOrNum (counts.lookup "WARN") 0) ↔
      (0 < lookupD counts "FATAL" ∨ 0 < lookupD counts "FATL" ∨
        0 < lookupD counts "ERROR" ∨ 0 < lookupD counts "WARN") := by
  simp [jsOrNum_pos, lookupD, or_assoc]

/-- C10: with a hardening summary available, SEC-03 fails exactly when the
counts map records a positive count under FATAL, the misspelled fallback
FATL, ERROR or WARN; any other level key never causes a failure. -/
theorem sec03_fail_iff_flagged_levels (a : Artifact)
    (haf : a.found = true) (hap : a.parsed = true)
    (counts : List (String × Nat)) :
    ((evaluateSec03 a (some ⟨counts⟩)).status = STATUS_FAIL ↔
      (0 < lookupD counts "FATAL" ∨ 0 < lookupD counts "FATL" ∨
        0 < lookupD counts "ERROR" ∨ 0 < lookupD counts "WARN")) := by
  have hcond := sec03_cond_iff counts
  simp only [evaluateSec03, haf, hap, Bool.not_true, Bool.false_eq_true,
    if_false]
  split
  · next h => exact iff_of_true rfl (hcond.mp h)
  · next h =>
    refine iff_of_false ?_ (fun hr => h (hcond.mpr hr))
    simp [STATUS_PASS, STATUS_FAIL]

/-- Witness: a single WARN finding makes SEC-03 fail; the hypotheses are
discharged on a concrete valid artifact. -/
theorem sec03_fail_iff_flagged_levels_witness :
    (evaluateSec03 (validArtifact "dockle.json" (Json.arr []))
      (some ⟨[("WARN", 1)]⟩)).status = STATUS_FAIL :=
  (sec03_fail_iff_flagged_levels _ rfl rfl [("WARN", 1)]).mpr
    (Or.inr (Or.inr (Or.inr (by decide))))

/-- C9: the reader reports found = false exactly on a file-not-found read
outcome; every other I/O failure is classified as present-but-invalid with
a "Read error" message, and every control consuming such an artifact FAILs
through its invalid-JSON branch. -/
theorem read_error_classified_invalid_json
    (dir nm msg : String) (parse : String → Except String Json)
    (b : Artifact) (t u : Option TrivySummary) (s : Option DockleSummary) :
    (∀ outcome, (readJsonArtifact dir nm outcome parse).found = false ↔
        outcome = FsOutcome.enoent) ∧
      ((readJsonArtifact dir nm (FsOutcome.err msg) parse).found = true ∧
        (readJsonArtifact dir nm (FsOutcome.err msg) parse).parsed = false ∧
        (readJsonArtifact dir nm (FsOutcome.err msg) parse).error =
          some ("Read error: " ++ msg) ∧
        (evaluateSec01 (readJsonArtifact dir nm (FsOutcome.err msg) parse)).status =
          STATUS_FAIL ∧
        (evaluateSec01 (readJsonArtifact dir nm (FsOutcome.err msg) parse)).details =
          "gitleaks.json is not valid JSON (Read error: " ++ msg ++ ")" ∧
        (evaluateSec02 (readJsonArtifact dir nm (FsOutcome.err msg) parse) b t u).status =
          STATUS_FAIL ∧
        (evaluateSec03 (readJsonArtifact dir nm (FsOutcome.err msg) parse) s).status =
          STATUS_FAIL ∧
        (evaluateSec04 (readJsonArtifact dir nm (FsOutcome.err msg) parse) b t u).status =
          STATUS_FAIL ∧
        (evaluateSec05 (readJsonArtifact dir nm (FsOutcome.err msg) parse)).status =
          STATUS_FAIL) := by
  constructor
  · intro outcome
    cases outcome with
    | ok content => cases hp : parse content <;> simp [readJsonArtifact, hp]
    | enoent => simp [readJsonArtifact]
    | err m => simp [readJsonArtifact]
  · refine ⟨rfl, rfl, rfl, rfl, ?_, ?_, rfl, ?_, rfl⟩
    · show "gitleaks.json is not valid JSON (" ++ ("Read error: " ++ msg) ++ ")" =
        "gitleaks.json is not valid JSON (Read error: " ++ msg ++ ")"
      rw [← String.append_assoc]
      rfl
    · have ha : readJsonArtifact dir nm (FsOutcome.err msg) parse =
          ⟨nm, dir ++ "/" ++ nm, true, false, Json.null,
            some ("Read error: " ++ msg)⟩ := rfl
      rw [ha]
      cases hbf : b.found <;> cases hbp : b.parsed <;>
        simp [evaluateSec02, hbf, hbp, List.singleton_append]
    · have ha : readJsonArtifact dir nm (FsOutcome.err msg) parse =
          ⟨nm, dir ++ "/" ++ nm, true, false, Json.null,
            some ("Read error: " ++ msg)⟩ := rfl
      rw [ha]
      cases hbf : b.found <;> cases hbp : b.parsed <;>
        simp [evaluateSec04, hbf, hbp, List.singleton_append]

/-- A single vulnerability entry is summarized into one bump of its
normalized severity. -/
theorem summarize_single_vuln (v : Json) :
    summarizeTrivyVulns (Json.obj [("Results",
        Json.arr [Json.obj [("Vulnerabilities", Json.arr [v])]])]) =
      some ⟨TRIVY_SEVERITIES.foldl
          (fun acc sev => acc + countOf (addSev zeroTrivyCounts (severityOf v)) sev) 0,
        addSev zeroTrivyCounts (severityOf v)⟩ := rfl

/-- A lowercase spelling of a known severity label normalizes to that
label. -/
theorem severity_lowercase_normalized (lab sev : String)
    (hmem : lab ∈ TRIVY_SEVERITIES) (hup : toUpperCase sev = lab) :
    severityOf (Json.obj [("Severity", Json.str sev)]) = lab := by
  have hne : sev ≠ "" := by
    intro h
    subst h
    rw [show toUpperCase "" = "" from rfl] at hup
    subst hup
    simp [TRIVY_SEVERITIES] at hmem
  have hraw : severityRaw (Json.obj [("Severity", Json.str sev)]) = toUpperCase sev := by
    simp [severityRaw, jsGet, jsTruthy, jsToString, hne]
  simp [severityOf, hraw, hup, hmem]

/-- C6: a severity whose uppercase form is a known label is counted under
that label; in particular a lowercase "critical"-style entry is counted
as CRITICAL, and SEC-04 FAILs on an otherwise valid artifact containing
such an entry. -/
theorem severity_case_insensitive_sec04
    (lab sev : String) (hmem : lab ∈ TRIVY_SEVERITIES) (hup : toUpperCase sev = lab)
    (a b : Artifact) (u : TrivySummary) :
    severityOf (Json.obj [("Severity", Json.str sev)]) = lab ∧
      (∃ s2, summarizeTrivyVulns (mkTrivyReport sev) = some s2 ∧
        countOf s2.counts lab = 1) ∧
      (lab = "CRITICAL" → a.found = true → a.parsed = true →
        b.found = true → b.parsed = true → a.data = mkTrivyReport sev →
        (evaluateSec04 a b (summarizeTrivyVulns a.data) (some u)).status = STATUS_FAIL) := by
  have hOf := severity_lowercase_normalized lab sev hmem hup
  have hsum : summarizeTrivyVulns (mkTrivyReport sev) =
      some ⟨TRIVY_SEVERITIES.foldl
          (fun acc sev2 => acc + countOf (addSev zeroTrivyCounts lab) sev2) 0,
        addSev zeroTrivyCounts lab⟩ := by
    have h0 := summarize_single_vuln (Json.obj [("Severity", Json.str sev)])
    rw [hOf] at h0
    exact h0
  refine ⟨hOf, ⟨_, hsum, ?_⟩, ?_⟩
  · simp only [TRIVY_SEVERITIES, List.mem_cons, List.mem_singleton,
      List.not_mem_nil, or_false] at hmem
    rcases hmem with rfl | rfl | rfl | rfl | rfl <;> rfl
  · intro hlab haf hap hbf hbp hdata
    subst hlab
    rw [hdata, hsum]
    have hpos : (0 : Nat) <
        (addSev zeroTrivyCounts "CRITICAL").CRITICAL + u.counts.CRITICAL := by
      show 0 < 1 + u.counts.CRITICAL
      omega
    simp [evaluateSec04, haf, hap, hbf, hbp, hpos]

/-- Witness: a lowercase "critical" entry in an otherwise valid Trivy
artifact makes SEC-04 fail. -/
theorem severity_case_insensitive_sec04_witness :
    (evaluateSec04 (validArtifact "trivy-fs.json" (mkTrivyReport "critical"))
        (validArtifact "trivy-image.json" (Json.obj [("Results", Json.arr [])]))
        (summarizeTrivyVulns
          (validArtifact "trivy-fs.json" (mkTrivyReport "critical")).data)
        (some ⟨0, zeroTrivyCounts⟩)).status = STATUS_FAIL := by
  have h := severity_case_insensitive_sec04 "CRITICAL" "critical" (by decide) (by decide)
    (validArtifact "trivy-fs.json" (mkTrivyReport "critical"))
    (validArtifact "trivy-image.json" (Json.obj [("Results", Json.arr [])]))
    ⟨0, zeroTrivyCounts⟩
  exact h.2.2 rfl rfl rfl rfl rfl rfl

/-- Splitting the unescaped-pipe count across an append. -/
theorem cupAux_append (xs ys : List Char) (p : Option Char) :
    cupAux p (xs ++ ys) = cupAux p xs + cupAux (lastOptC p xs) ys := by
  induction xs generalizing p with
  | nil => simp [cupAux, lastOptC]
  | cons c rest ih =>
    simp only [List.cons_append, cupAux, lastOptC, List.append_eq]
    rw [ih]
    omega

/-- A pipe-free segment contributes no unescaped pipes. -/
theorem cupAux_no_pipe (xs : List Char) (hx : '|' ∉ xs) (p : Option Char) :
    cupAux p xs = 0 := by
  induction xs generalizing p with
  | nil => rfl
  | cons c rest ih =>
    simp only [List.mem_cons, not_or] at hx
    have hc : ¬ (c = '|') := fun h => hx.1 h.symm
    simp [cupAux, hc]
    exact ih hx.2 (some c)

/-- The escaped details segment contributes no unescaped pipes, whatever
character precedes it. -/
theorem cupAux_escPipes (ds : List Char) (p : Option Char) :
    cupAux p (escPipes ds) = 0 := by
  induction ds generalizing p with
  | nil => rfl
  | cons c rest ih =>
    by_cases hc : c = '|'
    · subst hc
      simp [escPipes, cupAux, ih]
    · simp [escPipes, hc, cupAux, ih]

/-- The opening "| " of a row contributes exactly one delimiter. -/
theorem cup_start (R : List Char) :
    cupAux none ('|' :: ' ' :: R) = 1 + cupAux (some ' ') R := by
  simp [cupAux]

/-- A middle " | " separator contributes exactly one delimiter. -/
theorem cup_mid (p : Option Char) (R : List Char) :
    cupAux p (' ' :: '|' :: ' ' :: R) = 1 + cupAux (some ' ') R := by
  simp [cupAux]

/-- The closing " |" of a row contributes exactly one delimiter. -/
theorem cup_end (p : Option Char) : cupAux p [' ', '|'] = 1 := by
  simp [cupAux]

/-- C7: in a rendered table row every pipe coming from the details string
is escaped, and (as long as the id and status carry no pipe themselves)
the row has exactly the four delimiter pipes of a three-column row. -/
theorem table_rows_escape_pipes (c : Verdict)
    (hid : '|' ∉ c.id.data) (hst : '|' ∉ c.status.data) :
    (∀ p, cupAux p (escapeMarkdown c.details).data = 0) ∧
      countUnescapedPipes (renderControlRow c) = 4 := by
  constructor
  · intro p
    exact cupAux_escPipes c.details.data p
  · show cupAux none (renderControlRow c).data = 4
    have hd0 : (renderControlRow c).data =
        (((((['|', ' '] ++ c.id.data) ++ [' ', '|', ' ']) ++ c.status.data) ++
          [' ', '|', ' ']) ++ escPipes c.details.data) ++ [' ', '|'] := rfl
    rw [hd0]
    simp only [List.append_assoc, List.cons_append, List.nil_append]
    rw [cup_start, cupAux_append c.id.data, cupAux_no_pipe c.id.data hid, cup_mid,
      cupAux_append c.status.data, cupAux_no_pipe c.status.data hst, cup_mid,
      cupAux_append (escPipes c.details.data), cupAux_escPipes, cup_end]

/-- Witness: a details string containing a pipe still renders as a
four-delimiter row. -/
theorem table_rows_escape_pipes_witness :
    countUnescapedPipes (renderControlRow ⟨"SEC-01", "PASS", "a|b"⟩) = 4 :=
  (table_rows_escape_pipes ⟨"SEC-01", "PASS", "a|b"⟩ (by decide) (by decide)).2

end GenerateReport

